import Mathlib

/-!
Shallow embedding of `src/dcpu.py` (a DCPU-16 interpreter) and verification
of the specification's claims about it.

Modelling conventions:
* Python integers are `Nat`/`Int`; the source's `val & 0xFFFF` on a Python
  int equals `val mod 2^16` (two's-complement semantics of `&` with a
  positive mask), written here as `(val % 65536).toNat`.
* The mutable `DCPU` object becomes an explicit `CPU` state threaded
  through every operation.  `memory` (an `array.array('H')` of 65536 words)
  and `registers` (a list of 8 ints) are modelled as total functions
  `Nat → Nat`; every index the source actually uses is kept in range by the
  masking in `_overflown`, and every value stored by `tick` is masked to
  16 bits before the store, matching the array's `'H'` element invariant.
* Python exceptions (NameError from unscoped identifiers, ZeroDivisionError,
  and the `Exception` raised by `_abort`) are modelled as an explicit error
  type; fallible operations return `Except`.
* `a /= b` (line 168) is modelled with Python 2 semantics, where `/` on ints
  is floor division; under Python 3 it produces a float and the later
  `val & self._MAX_VAL` in `_overflown` raises TypeError.  Division by zero
  raises ZeroDivisionError under both.  No theorem below depends on the
  quotient for a nonzero divisor.
-/

namespace Dcpu

/-- Python runtime exceptions that the source can raise during a tick:
`NameError` from an identifier that is not in scope (`reg` at lines 222/224,
`IFN`/`IFG`/`IFB` at lines 186-192, `NUM_LIT` at line 289),
`ZeroDivisionError` from `a /= b` / `a %= b` with `b == 0`, and the generic
`Exception(message)` raised by `_abort` (line 203). -/
inductive PyError where
  | nameError (n : String)
  | zeroDivisionError
  | exc (msg : String)
  deriving DecidableEq, Repr

/-- The mutable state of one `DCPU` instance (`_init_cpu`, lines 124-133):
`memory` (65536 words), `registers` (8 words), `pc`, `sp`, overflow flag `o`. -/
structure CPU where
  memory : Nat → Nat
  registers : Nat → Nat
  pc : Nat
  sp : Nat
  o : Bool

/-- Opcode constant (`DCPU_OpCodes`, lines 39-54). -/
def NOP : Nat := 0
/-- Opcode constant. -/
def SET : Nat := 1
/-- Opcode constant. -/
def ADD : Nat := 2
/-- Opcode constant. -/
def SUB : Nat := 3
/-- Opcode constant. -/
def MUL : Nat := 4
/-- Opcode constant. -/
def DIV : Nat := 5
/-- Opcode constant. -/
def MOD : Nat := 6
/-- Opcode constant. -/
def SHL : Nat := 7
/-- Opcode constant. -/
def SHR : Nat := 8
/-- Opcode constant. -/
def AND : Nat := 9
/-- Opcode constant. -/
def BOR : Nat := 10
/-- Opcode constant. -/
def XOR : Nat := 11
/-- Opcode constant. -/
def IFE : Nat := 12

/-- Value-code constant (`DCPU_Values`, lines 62-73). -/
def POP : Nat := 24
/-- Value-code constant. -/
def PEEK : Nat := 25
/-- Value-code constant. -/
def PUSH : Nat := 26
/-- Value-code constant. -/
def SP : Nat := 27
/-- Value-code constant. -/
def PC : Nat := 28
/-- Value-code constant. -/
def O : Nat := 29
/-- Value-code constant. -/
def MEM : Nat := 30
/-- Value-code constant. -/
def MEM_LIT : Nat := 31

/-- `_OP_PORTION = 0b0000000000001111` (line 77). -/
def OP_PORTION : Nat := 15
/-- `_AV_PORTION = 0b0000001111110000` (line 78). -/
def AV_PORTION : Nat := 1008
/-- `_BV_PORTION = 0b1111110000000000` (line 79). -/
def BV_PORTION : Nat := 64512
/-- `_MAX_VAL = 0xFFFF` (line 86). -/
def MAX_VAL : Nat := 65535

/-- `_has_overflown` (lines 135-140): `val < 0 or val > self._MAX_VAL`. -/
def _has_overflown (val : Int) : Bool :=
  val < 0 || val > (MAX_VAL : Int)

/-- `_overflown` (lines 142-148).  Sets `self.o = self._has_overflown(val)`
and returns `val & self._MAX_VAL`.  Note: the source ignores its `setO`
parameter (the flag is overwritten on every call); the parameter is kept
here to mirror the signature.  `setO` defaults to `True` in the source and
is passed explicitly at each call site below. -/
def _overflown (s : CPU) (val : Int) (setO : Bool) : CPU × Nat :=
  ({ s with o := _has_overflown val }, (val % 65536).toNat)

/-- `_incPC` (lines 303-307): `self.pc = self._overflown(self.pc+1)`. -/
def _incPC (s : CPU) : CPU :=
  let p := _overflown s ((s.pc : Int) + 1) true
  { p.1 with pc := p.2 }

/-- `_incSP` (lines 309-313): `self.sp = self._overflown(self.sp+1)`. -/
def _incSP (s : CPU) : CPU :=
  let p := _overflown s ((s.sp : Int) + 1) true
  { p.1 with sp := p.2 }

/-- `_decSP` (lines 315-319): `self.sp = self._overflown(self.sp-1)`. -/
def _decSP (s : CPU) : CPU :=
  let p := _overflown s ((s.sp : Int) - 1) true
  { p.1 with sp := p.2 }

/-- `_setval` (lines 205-295).  `f = none` is a read (returns the value at
the location), `f = some v` a write.  Branches follow the source's
`if`/`elif` chain in order.  Deviations of the source from its own
constants, reproduced faithfully here:
* codes 8-15 (lines 218-224) use the unbound local `reg` on both the read
  and the write path, so they raise `NameError("reg")`;
* any code `≥ 32` reaches `elif vc in NUM_LIT:` (line 289), and evaluating
  that condition raises `NameError("NUM_LIT")` because `NUM_LIT` is a class
  attribute referenced without `self.`; the final `_abort("UNKNOWN VALUE
  CODE")` arm (line 295) is therefore unreachable;
* codes 16-23 (lines 225-235) advance `pc` and read the next word *before*
  distinguishing read from write, and `_overflown` (line 231) also
  overwrites the overflow flag while masking the computed address;
* the POP write path (lines 236-243) falls through to `return vc`, so it
  returns the code 24 itself. -/
def _setval (s : CPU) (vc : Nat) (f : Option Nat) : Except PyError (Option Nat × CPU) :=
  if vc < 8 then
    match f with
    | none   => .ok (some (s.registers vc), s)
    | some v => .ok (none, { s with registers := fun i => if i = vc then v else s.registers i })
  else if vc < 16 then
    .error (.nameError "reg")
  else if vc < 24 then
    let s1 := _incPC s
    let next_mem := s1.memory s1.pc
    let reg := s1.registers (vc - 16)
    let p := _overflown s1 ((reg : Int) + (next_mem : Int)) true
    match f with
    | none   => .ok (some (p.1.memory p.2), p.1)
    | some v => .ok (none, { p.1 with memory := fun i => if i = p.2 then v else p.1.memory i })
  else if vc = POP then
    match f with
    | none   => .ok (some (s.memory s.sp), _incSP s)
    | some v =>
      let s1 := { s with memory := fun i => if i = s.sp then v else s.memory i }
      .ok (some POP, _incSP s1)
  else if vc = PEEK then
    match f with
    | none   => .ok (some (s.memory s.sp), s)
    | some v => .ok (none, { s with memory := fun i => if i = s.sp then v else s.memory i })
  else if vc = PUSH then
    let s1 := _decSP s
    match f with
    | none   => .ok (some (s1.memory s1.sp), s1)
    | some v => .ok (none, { s1 with memory := fun i => if i = s1.sp then v else s1.memory i })
  else if vc = SP then
    match f with
    | none   => .ok (some s.sp, s)
    | some v => .ok (none, { s with sp := v })
  else if vc = PC then
    match f with
    | none   => .ok (some s.pc, s)
    | some v => .ok (none, { s with pc := v })
  else if vc = O then
    match f with
    | none   => .ok (some (if s.o then 1 else 0), s)
    | some v => .ok (none, { s with o := v != 0 })
  else if vc = MEM then
    let s1 := _incPC s
    let addr := s1.memory s1.pc
    match f with
    | none   => .ok (some (s1.memory addr), s1)
    | some v => .ok (none, { s1 with memory := fun i => if i = addr then v else s1.memory i })
  else if vc = MEM_LIT then
    match f with
    | some _ => .ok (none, s)
    | none   =>
      let s1 := _incPC s
      .ok (some (s1.memory s1.pc), s1)
  else
    .error (.nameError "NUM_LIT")

/-- `_getval` (lines 297-301): `return self._setval(vc, None)`. -/
def _getval (s : CPU) (vc : Nat) : Except PyError (Option Nat × CPU) :=
  _setval s vc none

/-- `_tick` (lines 150-199).  Returns the optional writeback value together
with the updated state.  Deviations of the source from its own comments,
reproduced faithfully here:
* `SET` (line 160) executes `b = a`, rebinding the *local* `b`, and then
  falls through to `return self._overflown(a, setO=True)` (line 199), so
  the value stored back into operand a is operand a's own old value;
* ops 1-8 return `self._overflown(a, setO=True)` (masked, flag written);
  `AND`/`BOR`/`XOR` return `a` unmasked with no flag write (line 198);
* `IFE` (opcode 12, lines 183-185) is the only working conditional: for any
  `op` not in `{0, ..., 12}` the chain reaches `elif op == IFN:` (line 186)
  and evaluating the unscoped name `IFN` raises `NameError("IFN")`, so
  opcodes 13-15 fault and the `_abort("UNKNOWN OPCODE")` arm (line 196) is
  unreachable;
* `a /= b` / `a %= b` with `b == 0` raise ZeroDivisionError; the nonzero
  case of DIV is modelled as floor division (see the header note). -/
def _tick (s : CPU) (op : Nat) (a b : Nat) : Except PyError (Option Nat × CPU) :=
  if op = NOP then .ok (none, s)
  else if op = SET then
    let p := _overflown s (a : Int) true
    .ok (some p.2, p.1)
  else if op = ADD then
    let p := _overflown s ((a : Int) + (b : Int)) true
    .ok (some p.2, p.1)
  else if op = SUB then
    let p := _overflown s ((a : Int) - (b : Int)) true
    .ok (some p.2, p.1)
  else if op = MUL then
    let p := _overflown s ((a : Int) * (b : Int)) true
    .ok (some p.2, p.1)
  else if op = DIV then
    if b = 0 then .error .zeroDivisionError
    else
      let p := _overflown s ((a / b : Nat) : Int) true
      .ok (some p.2, p.1)
  else if op = MOD then
    if b = 0 then .error .zeroDivisionError
    else
      let p := _overflown s ((a % b : Nat) : Int) true
      .ok (some p.2, p.1)
  else if op = SHL then
    let p := _overflown s ((a <<< b : Nat) : Int) true
    .ok (some p.2, p.1)
  else if op = SHR then
    let p := _overflown s ((a >>> b : Nat) : Int) true
    .ok (some p.2, p.1)
  else if op = AND then .ok (some (a &&& b), s)
  else if op = BOR then .ok (some (a ||| b), s)
  else if op = XOR then .ok (some (a ^^^ b), s)
  else if op = IFE then
    if a ≠ b then .ok (none, _incPC s) else .ok (none, s)
  else
    .error (.nameError "IFN")

/-- `_abort` (lines 201-203): prints `self.__dict__` and raises
`Exception(message)`.  Both call sites in the source (lines 196 and 295) are
unreachable, because a `NameError` fires on the branch condition examined
just before each of them; kept here for completeness. -/
def _abort (msg : String) : Except PyError (Option Nat × CPU) :=
  .error (.exc msg)

/-- Body of `tick` after the NOP early-return and before the final
`self._incPC()` (lines 331-344): decode the two operand portions, resolve
operand a then operand b, run `_tick`, and, when a writeback value was
produced, re-mask it with `_overflown` (line 343, which overwrites the
overflow flag from the already-masked value) and store it with
`_setval(a, fval)` (line 344, which *re-resolves* the operand-a code,
repeating any pc/sp side effects of its addressing mode).
The `none` operand arm is unreachable: every successful `_getval` returns a
value (see the read branches of `_setval`). -/
def tickRun (s : CPU) (v : Nat) : Except PyError CPU :=
  match _getval s (v &&& AV_PORTION) with
  | .error e => .error e
  | .ok (avalOpt, s1) =>
    match _getval s1 (v &&& BV_PORTION) with
    | .error e => .error e
    | .ok (bvalOpt, s2) =>
      match avalOpt, bvalOpt with
      | some aval, some bval =>
        match _tick s2 (v &&& OP_PORTION) aval bval with
        | .error e => .error e
        | .ok (none, s3) => .ok s3
        | .ok (some fval, s3) =>
          match _setval (_overflown s3 (fval : Int) true).1 (v &&& AV_PORTION)
              (some (_overflown s3 (fval : Int) true).2) with
          | .error e => .error e
          | .ok (_, s4) => .ok s4
      | _, _ => .error (.exc "operand resolved to None")

/-- `tick` (lines 321-346): fetch `v = int(self.memory[self.pc])`, isolate
the opcode `v & self._OP_PORTION`, and return immediately if it is `NOP`
(lines 329-330 — note: *before* any pc advance, so a NOP leaves `pc`
untouched).  Otherwise run the body and finish with the final
`self._incPC()` (line 346), applied here via `Except.map`. -/
def tick (s : CPU) : Except PyError CPU :=
  if s.memory s.pc &&& OP_PORTION = NOP then .ok s
  else (tickRun s (s.memory s.pc)).map _incPC

/-- The freshly constructed CPU (`__init__`/`_init_cpu`): memory, registers,
`pc` and `sp` all zero, overflow flag `False`. -/
def zeroCPU : CPU :=
  { memory := fun _ => 0, registers := fun _ => 0, pc := 0, sp := 0, o := false }


/-! ### Helper lemmas -/

/-- The mask `val & 0xFFFF` always yields a 16-bit value. -/
theorem mask_le (val : Int) : (val % 65536).toNat ≤ 65535 := by omega

/-- `_overflown` does not touch `pc`. -/
theorem overflown_pc (s : CPU) (val : Int) (b : Bool) :
    (_overflown s val b).1.pc = s.pc := rfl

/-- `_incPC` leaves `pc` within the 16-bit range. -/
theorem incPC_pc_le (s : CPU) : (_incPC s).pc ≤ 65535 :=
  show (((s.pc : Int) + 1) % 65536).toNat ≤ 65535 from mask_le _

/-- `_incSP` does not touch `pc`. -/
theorem incSP_pc (s : CPU) : (_incSP s).pc = s.pc := rfl

/-- `_decSP` does not touch `pc`. -/
theorem decSP_pc (s : CPU) : (_decSP s).pc = s.pc := rfl

/-- After an `_incPC` from a 16-bit `pc`, the overflow flag records exactly
whether the counter wrapped, i.e. whether the new `pc` is 0. -/
theorem incPC_o_eq (t : CPU) (h : t.pc ≤ 65535) :
    (_incPC t).o = decide ((_incPC t).pc = 0) := by
  have h1 : ¬ ((t.pc : Int) + 1 < 0) := by omega
  have h2 : ((t.pc : Int) + 1 > ((65535 : Nat) : Int)) ↔
      ((((t.pc : Int) + 1) % 65536).toNat = 0) := by omega
  show (decide ((t.pc : Int) + 1 < 0) || decide ((t.pc : Int) + 1 > ((MAX_VAL : Nat) : Int)))
      = decide ((((t.pc : Int) + 1) % 65536).toNat = 0)
  rw [decide_eq_false h1, Bool.false_or]
  exact decide_eq_decide.mpr h2

/-- Any successful `_setval` whose written value (if any) is 16-bit keeps
`pc` within the 16-bit range. -/
theorem setval_pc_le (s : CPU) (vc : Nat) (f : Option Nat) (x : Option Nat) (t : CPU)
    (hpc : s.pc ≤ 65535) (hf : ∀ w, f = some w → w ≤ 65535)
    (h : _setval s vc f = .ok (x, t)) : t.pc ≤ 65535 := by
  unfold _setval at h
  by_cases c1 : vc < 8
  · rw [if_pos c1] at h
    cases f with
    | none => cases h; exact hpc
    | some w => cases h; exact hpc
  rw [if_neg c1] at h
  by_cases c2 : vc < 16
  · rw [if_pos c2] at h; cases h
  rw [if_neg c2] at h
  by_cases c3 : vc < 24
  · rw [if_pos c3] at h
    cases f with
    | none => cases h; exact incPC_pc_le s
    | some w => cases h; exact incPC_pc_le s
  rw [if_neg c3] at h
  by_cases c4 : vc = POP
  · rw [if_pos c4] at h
    cases f with
    | none => cases h; exact hpc
    | some w => cases h; exact hpc
  rw [if_neg c4] at h
  by_cases c5 : vc = PEEK
  · rw [if_pos c5] at h
    cases f with
    | none => cases h; exact hpc
    | some w => cases h; exact hpc
  rw [if_neg c5] at h
  by_cases c6 : vc = PUSH
  · rw [if_pos c6] at h
    cases f with
    | none => cases h; exact hpc
    | some w => cases h; exact hpc
  rw [if_neg c6] at h
  by_cases c7 : vc = SP
  · rw [if_pos c7] at h
    cases f with
    | none => cases h; exact hpc
    | some w => cases h; exact hpc
  rw [if_neg c7] at h
  by_cases c8 : vc = PC
  · rw [if_pos c8] at h
    cases f with
    | none => cases h; exact hpc
    | some w => cases h; exact hf w rfl
  rw [if_neg c8] at h
  by_cases c9 : vc = O
  · rw [if_pos c9] at h
    cases f with
    | none => cases h; exact hpc
    | some w => cases h; exact hpc
  rw [if_neg c9] at h
  by_cases c10 : vc = MEM
  · rw [if_pos c10] at h
    cases f with
    | none => cases h; exact incPC_pc_le s
    | some w => cases h; exact incPC_pc_le s
  rw [if_neg c10] at h
  by_cases c11 : vc = MEM_LIT
  · rw [if_pos c11] at h
    cases f with
    | none => cases h; exact incPC_pc_le s
    | some w => cases h; exact hpc
  rw [if_neg c11] at h
  cases h

/-- Any successful `_getval` keeps `pc` within the 16-bit range. -/
theorem getval_pc_le (s : CPU) (vc : Nat) (x : Option Nat) (t : CPU)
    (hpc : s.pc ≤ 65535) (h : _getval s vc = .ok (x, t)) : t.pc ≤ 65535 :=
  setval_pc_le s vc none x t hpc (fun w hw => by cases hw) h

/-- Any successful `_tick` keeps `pc` within the 16-bit range. -/
theorem tickOp_pc_le (s : CPU) (op a b : Nat) (x : Option Nat) (t : CPU)
    (hpc : s.pc ≤ 65535) (h : _tick s op a b = .ok (x, t)) : t.pc ≤ 65535 := by
  unfold _tick at h
  by_cases c1 : op = NOP
  · rw [if_pos c1] at h; cases h; exact hpc
  rw [if_neg c1] at h
  by_cases c2 : op = SET
  · rw [if_pos c2] at h; cases h; exact hpc
  rw [if_neg c2] at h
  by_cases c3 : op = ADD
  · rw [if_pos c3] at h; cases h; exact hpc
  rw [if_neg c3] at h
  by_cases c4 : op = SUB
  · rw [if_pos c4] at h; cases h; exact hpc
  rw [if_neg c4] at h
  by_cases c5 : op = MUL
  · rw [if_pos c5] at h; cases h; exact hpc
  rw [if_neg c5] at h
  by_cases c6 : op = DIV
  · rw [if_pos c6] at h
    by_cases cb : b = 0
    · rw [if_pos cb] at h; cases h
    · rw [if_neg cb] at h; cases h; exact hpc
  rw [if_neg c6] at h
  by_cases c7 : op = MOD
  · rw [if_pos c7] at h
    by_cases cb : b = 0
    · rw [if_pos cb] at h; cases h
    · rw [if_neg cb] at h; cases h; exact hpc
  rw [if_neg c7] at h
  by_cases c8 : op = SHL
  · rw [if_pos c8] at h; cases h; exact hpc
  rw [if_neg c8] at h
  by_cases c9 : op = SHR
  · rw [if_pos c9] at h; cases h; exact hpc
  rw [if_neg c9] at h
  by_cases c10 : op = AND
  · rw [if_pos c10] at h; cases h; exact hpc
  rw [if_neg c10] at h
  by_cases c11 : op = BOR
  · rw [if_pos c11] at h; cases h; exact hpc
  rw [if_neg c11] at h
  by_cases c12 : op = XOR
  · rw [if_pos c12] at h; cases h; exact hpc
  rw [if_neg c12] at h
  by_cases c13 : op = IFE
  · rw [if_pos c13] at h
    by_cases cab : a ≠ b
    · rw [if_pos cab] at h; cases h; exact incPC_pc_le s
    · rw [if_neg cab] at h; cases h; exact hpc
  rw [if_neg c13] at h
  cases h


/-- Any successful `tickRun` keeps `pc` within the 16-bit range: the only
`pc` mutations on the way are `_incPC` (masked) and the PC-register write
of the already-masked writeback value. -/
theorem tickRun_pc_le (s : CPU) (v : Nat) (t : CPU) (hpc : s.pc ≤ 65535)
    (h : tickRun s v = .ok t) : t.pc ≤ 65535 := by
  unfold tickRun at h
  cases hga : _getval s (v &&& AV_PORTION) with
  | error e => rw [hga] at h; cases h
  | ok p =>
    obtain ⟨aOpt, s1⟩ := p
    rw [hga] at h
    dsimp only at h
    have h1 : s1.pc ≤ 65535 := getval_pc_le s _ _ s1 hpc hga
    cases hgb : _getval s1 (v &&& BV_PORTION) with
    | error e => rw [hgb] at h; cases h
    | ok q =>
      obtain ⟨bOpt, s2⟩ := q
      rw [hgb] at h
      dsimp only at h
      have h2 : s2.pc ≤ 65535 := getval_pc_le s1 _ _ s2 h1 hgb
      cases aOpt with
      | none => cases h
      | some aval =>
        cases bOpt with
        | none => cases h
        | some bval =>
          dsimp only at h
          cases ht : _tick s2 (v &&& OP_PORTION) aval bval with
          | error e => rw [ht] at h; cases h
          | ok r =>
            obtain ⟨fOpt, s3⟩ := r
            rw [ht] at h
            have h3 : s3.pc ≤ 65535 := tickOp_pc_le s2 _ aval bval fOpt s3 h2 ht
            cases fOpt with
            | none => cases h; exact h3
            | some fval =>
              dsimp only at h
              cases hset : _setval (_overflown s3 (fval : Int) true).1 (v &&& AV_PORTION)
                  (some (_overflown s3 (fval : Int) true).2) with
              | error e => rw [hset] at h; cases h
              | ok w =>
                obtain ⟨y, s4⟩ := w
                rw [hset] at h
                cases h
                have hfb : ∀ u, (some (_overflown s3 (fval : Int) true).2 : Option Nat) = some u →
                    u ≤ 65535 := by
                  intro u hu
                  cases Option.some.inj hu
                  exact mask_le (fval : Int)
                exact setval_pc_le ((_overflown s3 (fval : Int) true).1) _ _ y t h3 hfb hset


/-! ### Claim theorems -/

/-- Memory image for the C1 scenario: word 0 holds
`encode(SET, REG[0], LITERAL(5))` = `1 ||| (0 <<< 4) ||| ((32+5) <<< 10)` = 37889. -/
def c1_state : CPU :=
  { zeroCPU with memory := fun i => if i = 0 then 37889 else 0 }

/-- C1: the spec's SET scenario (register 0 should become 5 and pc 1) does
not execute on the code: `tick` masks the operand portions without shifting
them, so operand b is looked up as code 37889 &&& 64512 = 37888, which falls
through `_setval` to the unscoped `NUM_LIT` membership test and raises
NameError.  (Even with a shifted decode, literal code 37 would hit the same
NameError, and `_tick`'s SET arm returns operand a's own value, not b's.) -/
theorem c1_set_literal_scenario_faults :
    tick c1_state = .error (.nameError "NUM_LIT") := rfl

/-- Memory image for the C2 counterexample: word 0 holds
`encode(SET, a-code 1, b-code 0)` = 17; word 1 = 7 and word 2 = 9 are
next-word operand candidates; addresses 7 and 9 hold sentinels 100 and 200. -/
def c2_state : CPU :=
  { zeroCPU with memory := fun i =>
      if i = 0 then 17 else if i = 1 then 7 else if i = 2 then 9
      else if i = 7 then 100 else if i = 9 then 200 else 0 }

/-- C2: writeback re-resolves the operand-a code instead of storing to the
already-resolved location.  Operand a (unshifted portion 16, treated as
"next word + register 0") is read from address `regs[0] + memory[1] = 7`,
but the store in `tick` calls `_setval(a, fval)` again, which advances `pc`
a second time, reads `memory[2] = 9`, and writes to address 9; the final
`pc` is 3 rather than 2.  The claim's "no additional pc advance, memory
read, or sp adjustment" on writeback is violated. -/
theorem c2_writeback_reresolves_operand :
    (tick c2_state).map (fun t => (t.pc, t.memory 7, t.memory 9)) =
      .ok (3, 100, 100) := rfl

/-- State for the C3 counterexample: `ADD` with both operand portions 0
(register 0), register 0 = 40000, so a = b = 40000 and a + b = 80000. -/
def c3_state : CPU :=
  { zeroCPU with
    memory := fun i => if i = 0 then 2 else 0,
    registers := fun i => if i = 0 then 40000 else 0 }

/-- C3: ADD stores the correctly masked sum (80000 % 65536 = 14464) but the
final overflow flag is `false` even though a + b = 80000 > 65535: `tick`
re-masks the already-masked writeback (setting the flag from a value that
cannot overflow) and the final `_incPC` overwrites the flag again with the
pc-wrap indicator. -/
theorem c3_add_overflow_flag_clobbered :
    (tick c3_state).map (fun t => (t.registers 0, t.o, t.pc)) = .ok (14464, false, 1)
      ∧ 40000 + 40000 > 65535 ∧ (40000 + 40000) % 65536 = 14464 :=
  ⟨rfl, by norm_num, by norm_num⟩

/-- State for the C4 counterexample: `DIV` with both operand portions 0
(register 0), so a = b = registers[0] = 0. -/
def c4_state : CPU :=
  { zeroCPU with memory := fun i => if i = 0 then 5 else 0 }

/-- C4: DIV with divisor 0 raises ZeroDivisionError from `a /= b` instead of
storing 0 and setting the overflow flag. -/
theorem c4_div_by_zero_raises :
    tick c4_state = .error .zeroDivisionError := rfl

/-- C5: a reserved opcode 0 at `pc` returns from `tick` *before* the final
`_incPC`, so the whole state — `pc` included — is unchanged: `pc` stays 0
instead of advancing to 1 as the claim (and the source's own header comment
"No state change except PC") requires. -/
theorem c5_nop_leaves_pc_unchanged :
    tick zeroCPU = .ok zeroCPU ∧ zeroCPU.pc = 0 := ⟨rfl, rfl⟩

/-- State for the C6 counterexample: word 0 holds opcode 13 (IFN) with both
operand portions 0, so a = b = registers[0] = 0 and IFN's skip condition
(a == b) would hold. -/
def c6_state : CPU :=
  { zeroCPU with memory := fun i => if i = 0 then 13 else 0 }

/-- C6: the conditional opcode IFN does not skip; evaluating `op == IFN`
with the unscoped name `IFN` raises NameError, and likewise for IFG and
IFB, so only IFE of the four conditionals works. -/
theorem c6_conditional_ifn_raises :
    tick c6_state = .error (.nameError "IFN") := rfl

/-- C7: there is no typed UnknownOpcode failure.  `_tick` on an opcode
outside the defined table (16 is the smallest) raises NameError("IFN") at
the unscoped comparison before ever reaching the `_abort` arm, which itself
would raise a bare Exception after printing state; and `tick` can never
decode such an opcode anyway, since `v &&& OP_PORTION ≤ 15` always. -/
theorem c7_unknown_opcode_untyped :
    _tick zeroCPU 16 0 0 = .error (.nameError "IFN")
      ∧ ∀ v : Nat, v &&& OP_PORTION ≤ 15 :=
  ⟨rfl, fun _ => Nat.and_le_right⟩

/-- C8: a PUSH-write (code 26) of a 16-bit value v followed by a POP-read
(code 24) returns v and restores `sp` to its original value, for every
16-bit starting `sp`. -/
theorem c8_push_pop_roundtrip (s : CPU) (v : Nat) (hv : v ≤ 65535) (hsp : s.sp ≤ 65535) :
    ((_setval s PUSH (some v)).bind fun p =>
        (_setval p.2 POP none).map fun q => (q.1, q.2.sp)) = .ok (some v, s.sp) := by
  simp [_setval, _decSP, _incSP, _overflown, PUSH, POP, PEEK, SP, PC, O, MEM, MEM_LIT,
    Except.bind, Except.map]
  omega

/-- Witness for C8 at the concrete input `zeroCPU`, v = 5 (push lands at
address 65535 after the wrapping decrement, pop restores sp = 0). -/
theorem c8_push_pop_roundtrip_witness :
    (5 : Nat) ≤ 65535 ∧ zeroCPU.sp ≤ 65535 ∧
    ((_setval zeroCPU PUSH (some 5)).bind fun p =>
        (_setval p.2 POP none).map fun q => (q.1, q.2.sp)) = .ok (some 5, zeroCPU.sp) :=
  ⟨by decide, by decide, c8_push_pop_roundtrip zeroCPU 5 (by decide) (by decide)⟩

/-- C9: resolving value code 31 (next-word literal) as a read advances `pc`
by exactly 1 (mod 65536) and returns the memory word at the new `pc`,
leaving memory untouched; resolving it as a write returns with the state
completely unchanged (the `f is not None` early return precedes the pc
advance). -/
theorem c9_next_word_literal (s : CPU) (v : Nat) :
    (∃ t : CPU, _setval s MEM_LIT none = .ok (some (t.memory t.pc), t) ∧
        t.pc = (s.pc + 1) % 65536 ∧ t.memory = s.memory)
      ∧ _setval s MEM_LIT (some v) = .ok (none, s) := by
  constructor
  · refine ⟨_incPC s, rfl, ?_, rfl⟩
    show (((s.pc : Int) + 1) % 65536).toNat = (s.pc + 1) % 65536
    omega
  · rfl

/-- C10: `_overflown` overwrites the overflow flag regardless of its `setO`
argument; consequently `_incPC`/`_incSP`/`_decSP` each set the flag to
whether their counter wrapped past the 16-bit range, and any `tick` that
completes a non-NOP instruction ends with the flag recording only the final
pc advance: the flag equals "pc before the advance was 65535", i.e. the
resulting pc is 0. -/
theorem c10_overflow_clobbered_by_counter_advances (s : CPU) (val : Int) (setO : Bool)
    (hpc : s.pc ≤ 65535) (hsp : s.sp ≤ 65535) :
    (_overflown s val setO).1.o = _has_overflown val
      ∧ (_incPC s).o = decide (s.pc = 65535)
      ∧ (_incSP s).o = decide (s.sp = 65535)
      ∧ (_decSP s).o = decide (s.sp = 0)
      ∧ ∀ t, tick s = .ok t → s.memory s.pc &&& OP_PORTION ≠ NOP →
          t.o = decide (t.pc = 0) := by
  refine ⟨rfl, ?_, ?_, ?_, ?_⟩
  · show (decide ((s.pc : Int) + 1 < 0) || decide ((s.pc : Int) + 1 > ((MAX_VAL : Nat) : Int)))
        = decide (s.pc = 65535)
    rw [decide_eq_false (by omega : ¬ ((s.pc : Int) + 1 < 0)), Bool.false_or]
    exact decide_eq_decide.mpr (by unfold MAX_VAL; omega)
  · show (decide ((s.sp : Int) + 1 < 0) || decide ((s.sp : Int) + 1 > ((MAX_VAL : Nat) : Int)))
        = decide (s.sp = 65535)
    rw [decide_eq_false (by omega : ¬ ((s.sp : Int) + 1 < 0)), Bool.false_or]
    exact decide_eq_decide.mpr (by unfold MAX_VAL; omega)
  · show (decide ((s.sp : Int) - 1 < 0) || decide ((s.sp : Int) - 1 > ((MAX_VAL : Nat) : Int)))
        = decide (s.sp = 0)
    rw [decide_eq_false (by unfold MAX_VAL; omega : ¬ ((s.sp : Int) - 1 > ((MAX_VAL : Nat) : Int))),
      Bool.or_false]
    exact decide_eq_decide.mpr (by omega)
  · intro t ht hop
    unfold tick at ht
    rw [if_neg hop] at ht
    cases htr : tickRun s (s.memory s.pc) with
    | error e => rw [htr] at ht; cases ht
    | ok u =>
      rw [htr] at ht
      dsimp only [Except.map] at ht
      cases ht
      exact incPC_o_eq u (tickRun_pc_le s _ u hpc htr)

/-- Witness for C10 at the concrete input `zeroCPU` with val = -3 and
setO = false. -/
theorem c10_overflow_witness :
    zeroCPU.pc ≤ 65535 ∧ zeroCPU.sp ≤ 65535 ∧
    ((_overflown zeroCPU (-3) false).1.o = _has_overflown (-3)
      ∧ (_incPC zeroCPU).o = decide (zeroCPU.pc = 65535)
      ∧ (_incSP zeroCPU).o = decide (zeroCPU.sp = 65535)
      ∧ (_decSP zeroCPU).o = decide (zeroCPU.sp = 0)
      ∧ ∀ t, tick zeroCPU = .ok t → zeroCPU.memory zeroCPU.pc &&& OP_PORTION ≠ NOP →
          t.o = decide (t.pc = 0)) :=
  ⟨by decide, by decide,
    c10_overflow_clobbered_by_counter_advances zeroCPU (-3) false (by decide) (by decide)⟩

end Dcpu
